import Mathlib

/-!
Verification of the F1 2020 UDP telemetry decoder (`f1_2020_addon/bin/packets.py`).

The Python source declares the wire format as ctypes `LittleEndianStructure`
subclasses with `_pack_ = 1` (no alignment padding).  We embed that data model
shallowly: a small AST of C layout types (`CType`), a generic little-endian
packed decoder `from_buffer_copy` (the ctypes method used by the source), a
generic serializer `to_bytes` (ctypes `bytes(record)`), and the dispatch
function `unpack_udp_packet` translated line by line from the source.

Byte buffers are `List Nat` (each entry one byte, little-endian order as on the
wire, independent of any host byte order).  `c_float` / `c_double` fields are
modelled by their raw 32/64-bit patterns read little-endian from the wire; the
numeric reading of a 32-bit pattern is recovered by `f32ToRat` where a claim
speaks about the float's value.  A ctypes union occupies `max` of its members'
sizes; its value is the raw byte region, and members are re-decoded from that
region on demand exactly as `self.eventDetails.fastestLap` does in the source.
-/

/-- Little-endian read of `n` bytes from the front of a buffer. -/
def readUNat : Nat → List Nat → Nat
  | 0, _ => 0
  | n + 1, bs => bs.headD 0 + 256 * readUNat n bs.tail

/-- Little-endian encoding of a natural number into `n` bytes. -/
def encUNat : Nat → Nat → List Nat
  | 0, _ => []
  | n + 1, v => v % 256 :: encUNat n (v / 256)

/-- Two's-complement reading of an `n`-byte raw unsigned value, as ctypes does
for `c_int8` / `c_int16` fields. -/
def sintOf (n : Nat) (raw : Nat) : Int :=
  if raw < 2 ^ (8 * n) / 2 then (raw : Int) else (raw : Int) - 2 ^ (8 * n)

mutual
/-- Layout types of the ctypes declarations in the source: fixed-width
little-endian integers, `c_char` arrays, element arrays, packed structures
(`_pack_ = 1`, so a structure's size is the plain sum of its field sizes),
and unions (size is the maximum of the member sizes; every member here is a
packed structure of alignment 1, so the union adds no padding either). -/
inductive CType where
  | uint : Nat → CType
  | sint : Nat → CType
  | chars : Nat → CType
  | carray : CTypes → CType
  | cstruct : CFields → CType
  | cunion : CFields → CType

/-- A list of element types (used for fixed-length arrays `t * n`). -/
inductive CTypes where
  | nil : CTypes
  | cons : CType → CTypes → CTypes

/-- The ordered `_fields_` list of a structure or union. -/
inductive CFields where
  | nil : CFields
  | cons : String → CType → CFields → CFields
end

/-- Build a `_fields_` list from a Lean list literal. -/
def CFields.ofList : List (String × CType) → CFields
  | [] => .nil
  | (nm, t) :: rest => .cons nm t (CFields.ofList rest)

/-- `n` copies of an element type. -/
def CTypes.replicate : Nat → CType → CTypes
  | 0, _ => .nil
  | n + 1, t => .cons t (CTypes.replicate n t)

/-- The ctypes array type `t * n`. -/
def carr (t : CType) (n : Nat) : CType := .carray (CTypes.replicate n t)

/-- ctypes' `c_uint8`. -/
def c_uint8 : CType := .uint 1
/-- ctypes' `c_uint16`. -/
def c_uint16 : CType := .uint 2
/-- ctypes' `c_uint32`. -/
def c_uint32 : CType := .uint 4
/-- ctypes' `c_uint64`. -/
def c_uint64 : CType := .uint 8
/-- ctypes' `c_int8`. -/
def c_int8 : CType := .sint 1
/-- ctypes' `c_int16`. -/
def c_int16 : CType := .sint 2
/-- ctypes' `c_float`: 4 wire bytes, modelled as the raw 32-bit pattern. -/
def c_float : CType := .uint 4
/-- ctypes' `c_double`: 8 wire bytes, modelled as the raw 64-bit pattern. -/
def c_double : CType := .uint 8

mutual
/-- Decoded values: integers (or raw float bit patterns), raw byte regions
(`c_char` arrays and unions), arrays, and structures with named fields. -/
inductive CValue where
  | intV : Int → CValue
  | bytesV : List Nat → CValue
  | arrV : CValues → CValue
  | structV : CFieldVals → CValue

/-- A list of decoded array elements. -/
inductive CValues where
  | nil : CValues
  | cons : CValue → CValues → CValues

/-- Decoded named fields of a structure. -/
inductive CFieldVals where
  | nil : CFieldVals
  | cons : String → CValue → CFieldVals → CFieldVals
end

mutual
/-- `ctypes.sizeof` under `_pack_ = 1`: a structure's size is the sum of its
field sizes, an array's size is the sum of its element sizes, and a union's
size is the maximum of its member sizes. -/
def csizeof : CType → Nat
  | .uint n => n
  | .sint n => n
  | .chars n => n
  | .carray ts => csizeofElems ts
  | .cstruct fs => csizeofFields fs
  | .cunion fs => cmaxFields fs

/-- Total size of an array's elements. -/
def csizeofElems : CTypes → Nat
  | .nil => 0
  | .cons t ts => csizeof t + csizeofElems ts

/-- Sum of the field sizes of a packed structure. -/
def csizeofFields : CFields → Nat
  | .nil => 0
  | .cons _ t fs => csizeof t + csizeofFields fs

/-- Maximum of the member sizes of a union. -/
def cmaxFields : CFields → Nat
  | .nil => 0
  | .cons _ t fs => max (csizeof t) (cmaxFields fs)
end

mutual
/-- ctypes' `from_buffer_copy`: decode a value of layout type `t` from the
front of a byte buffer, little-endian, with consecutive fields at consecutive
offsets (no padding). -/
def from_buffer_copy : CType → List Nat → CValue
  | .uint n, bs => .intV (readUNat n bs)
  | .sint n, bs => .intV (sintOf n (readUNat n bs))
  | .chars n, bs => .bytesV (bs.take n)
  | .carray ts, bs => .arrV (decodeElems ts bs)
  | .cstruct fs, bs => .structV (decodeFields fs bs)
  | .cunion fs, bs => .bytesV (bs.take (cmaxFields fs))

/-- Decode consecutive array elements. -/
def decodeElems : CTypes → List Nat → CValues
  | .nil, _ => .nil
  | .cons t ts, bs => .cons (from_buffer_copy t bs) (decodeElems ts (bs.drop (csizeof t)))

/-- Decode consecutive structure fields. -/
def decodeFields : CFields → List Nat → CFieldVals
  | .nil, _ => .nil
  | .cons nm t fs, bs => .cons nm (from_buffer_copy t bs) (decodeFields fs (bs.drop (csizeof t)))
end

mutual
/-- ctypes' `bytes(record)`: the wire bytes of a value, inverse of
`from_buffer_copy` on well-typed values. -/
def to_bytes : CType → CValue → List Nat
  | .uint n, .intV v => encUNat n v.toNat
  | .sint n, .intV v => if 0 ≤ v then encUNat n v.toNat else encUNat n (v + 2 ^ (8 * n)).toNat
  | .chars _, .bytesV bs => bs
  | .cunion _, .bytesV bs => bs
  | .carray ts, .arrV vs => encodeElems ts vs
  | .cstruct fs, .structV vs => encodeFieldVals fs vs
  | _, _ => []

/-- Serialize consecutive array elements. -/
def encodeElems : CTypes → CValues → List Nat
  | .cons t ts, .cons v vs => to_bytes t v ++ encodeElems ts vs
  | _, _ => []

/-- Serialize consecutive structure fields. -/
def encodeFieldVals : CFields → CFieldVals → List Nat
  | .cons _ t fs, .cons _ v vs => to_bytes t v ++ encodeFieldVals fs vs
  | _, _ => []
end

mutual
/-- A value is well-typed for a layout type when its shape matches and every
leaf is in range for its declared width (exactly the values a ctypes record of
that type can hold in memory). -/
def wellTyped : CType → CValue → Bool
  | .uint n, .intV v => decide (0 ≤ v) && decide (v < 2 ^ (8 * n))
  | .sint n, .intV v => decide (-(2 ^ (8 * n) / 2) ≤ v) && decide (v < 2 ^ (8 * n) / 2)
  | .chars n, .bytesV bs => decide (bs.length = n) && bs.all (· < 256)
  | .cunion fs, .bytesV bs => decide (bs.length = cmaxFields fs) && bs.all (· < 256)
  | .carray ts, .arrV vs => wellTypedElems ts vs
  | .cstruct fs, .structV vs => wellTypedFields fs vs
  | _, _ => false

/-- Elementwise well-typedness for arrays. -/
def wellTypedElems : CTypes → CValues → Bool
  | .nil, .nil => true
  | .cons t ts, .cons v vs => wellTyped t v && wellTypedElems ts vs
  | _, _ => false

/-- Fieldwise well-typedness (names must agree with the declaration). -/
def wellTypedFields : CFields → CFieldVals → Bool
  | .nil, .nil => true
  | .cons nm t fs, .cons nm' v vs => decide (nm = nm') && wellTyped t v && wellTypedFields fs vs
  | _, _ => false
end

/-- Look up a named field of a decoded structure. -/
def getFieldVal : CFieldVals → String → Option CValue
  | .nil, _ => none
  | .cons nm v fs, s => if nm = s then some v else getFieldVal fs s

/-- Field access `record.name` on a decoded structure (default `intV 0`). -/
def getField (v : CValue) (s : String) : CValue :=
  match v with
  | .structV fs => (getFieldVal fs s).getD (.intV 0)
  | _ => .intV 0

/-- Integer field access. -/
def getIntField (v : CValue) (s : String) : Int :=
  match getField v s with
  | .intV i => i
  | _ => 0

/-- Raw-bytes field access (`c_char` arrays and unions). -/
def getBytesField (v : CValue) (s : String) : List Nat :=
  match getField v s with
  | .bytesV bs => bs
  | _ => []

/-- `PacketHeader`: the 24-byte header at the front of every packet. -/
def PacketHeader : CType := .cstruct (.ofList [
  ("packetFormat"           , c_uint16),
  ("gameMajorVersion"       , c_uint8 ),
  ("gameMinorVersion"       , c_uint8 ),
  ("packetVersion"          , c_uint8 ),
  ("packetId"               , c_uint8 ),
  ("sessionUID"             , c_uint64),
  ("sessionTime"            , c_float ),
  ("frameIdentifier"        , c_uint32),
  ("playerCarIndex"         , c_uint8 ),
  ("secondaryPlayerCarIndex", c_uint8 )])

/-- `CarMotionData_V1`. -/
def CarMotionData_V1 : CType := .cstruct (.ofList [
  ("worldPositionX"    , c_float),
  ("worldPositionY"    , c_float),
  ("worldPositionZ"    , c_float),
  ("worldVelocityX"    , c_float),
  ("worldVelocityY"    , c_float),
  ("worldVelocityZ"    , c_float),
  ("worldForwardDirX"  , c_int16),
  ("worldForwardDirY"  , c_int16),
  ("worldForwardDirZ"  , c_int16),
  ("worldRightDirX"    , c_int16),
  ("worldRightDirY"    , c_int16),
  ("worldRightDirZ"    , c_int16),
  ("gForceLateral"     , c_float),
  ("gForceLongitudinal", c_float),
  ("gForceVertical"    , c_float),
  ("yaw"               , c_float),
  ("pitch"             , c_float),
  ("roll"              , c_float)])

/-- `PacketMotionData_V1` (packet id 0). -/
def PacketMotionData_V1 : CType := .cstruct (.ofList [
  ("header"                , PacketHeader         ),
  ("carMotionData"         , carr CarMotionData_V1 22),
  ("suspensionPosition"    , carr c_float 4       ),
  ("suspensionVelocity"    , carr c_float 4       ),
  ("suspensionAcceleration", carr c_float 4       ),
  ("wheelSpeed"            , carr c_float 4       ),
  ("wheelSlip"             , carr c_float 4       ),
  ("localVelocityX"        , c_float              ),
  ("localVelocityY"        , c_float              ),
  ("localVelocityZ"        , c_float              ),
  ("angularVelocityX"      , c_float              ),
  ("angularVelocityY"      , c_float              ),
  ("angularVelocityZ"      , c_float              ),
  ("angularAccelerationX"  , c_float              ),
  ("angularAccelerationY"  , c_float              ),
  ("angularAccelerationZ"  , c_float              ),
  ("frontWheelsAngle"      , c_float              )])

/-- `MarshalZone_V1`. -/
def MarshalZone_V1 : CType := .cstruct (.ofList [
  ("zoneStart", c_float),
  ("zoneFlag" , c_int8 )])

/-- `WeatherForecastSample`. -/
def WeatherForecastSample : CType := .cstruct (.ofList [
  ("sessionType"     , c_uint8),
  ("timeOffset"      , c_uint8),
  ("weather"         , c_uint8),
  ("trackTemperature", c_int8 ),
  ("airTemperature"  , c_int8 )])

/-- `PacketSessionData_V1` (packet id 1). -/
def PacketSessionData_V1 : CType := .cstruct (.ofList [
  ("header"                   , PacketHeader        ),
  ("weather"                  , c_uint8             ),
  ("trackTemperature"         , c_int8              ),
  ("airTemperature"           , c_int8              ),
  ("totalLaps"                , c_uint8             ),
  ("trackLength"              , c_uint16            ),
  ("sessionType"              , c_uint8             ),
  ("trackId"                  , c_int8              ),
  ("formula"                  , c_uint8             ),
  ("sessionTimeLeft"          , c_uint16            ),
  ("sessionDuration"          , c_uint16            ),
  ("pitSpeedLimit"            , c_uint8             ),
  ("gamePaused"               , c_uint8             ),
  ("isSpectating"             , c_uint8             ),
  ("spectatorCarIndex"        , c_uint8             ),
  ("sliProNativeSupport"      , c_uint8             ),
  ("numMarshalZones"          , c_uint8             ),
  ("marshalZones"             , carr MarshalZone_V1 21),
  ("safetyCarStatus"          , c_uint8             ),
  ("networkGame"              , c_uint8             ),
  ("numWeatherForecastSamples", c_uint8             ),
  ("weatherForecastSamples"   , carr WeatherForecastSample 20)])

/-- `LapData_V1`. -/
def LapData_V1 : CType := .cstruct (.ofList [
  ("lastLapTime"               , c_float ),
  ("currentLapTime"            , c_float ),
  ("sector1TimeInMS"           , c_uint16),
  ("sector2TimeInMS"           , c_uint16),
  ("bestLapTime"               , c_float ),
  ("bestLapNum"                , c_uint8 ),
  ("bestLapSector1TimeInMS"    , c_uint16),
  ("bestLapSector2TimeInMS"    , c_uint16),
  ("bestLapSector3TimeInMS"    , c_uint16),
  ("bestOverallSector1TimeInMS", c_uint16),
  ("bestOverallSector1LapNum"  , c_uint8 ),
  ("bestOverallSector2TimeInMS", c_uint16),
  ("bestOverallSector2LapNum"  , c_uint8 ),
  ("bestOverallSector3TimeInMS", c_uint16),
  ("bestOverallSector3LapNum"  , c_uint8 ),
  ("lapDistance"               , c_float ),
  ("totalDistance"             , c_float ),
  ("safetyCarDelta"            , c_float ),
  ("carPosition"               , c_uint8 ),
  ("currentLapNum"             , c_uint8 ),
  ("pitStatus"                 , c_uint8 ),
  ("sector"                    , c_uint8 ),
  ("currentLapInvalid"         , c_uint8 ),
  ("penalties"                 , c_uint8 ),
  ("gridPosition"              , c_uint8 ),
  ("driverStatus"              , c_uint8 ),
  ("resultStatus"              , c_uint8 )])

/-- `PacketLapData_V1` (packet id 2). -/
def PacketLapData_V1 : CType := .cstruct (.ofList [
  ("header" , PacketHeader   ),
  ("lapData", carr LapData_V1 22)])

/-- `FastestLapData`. -/
def FastestLapData : CType := .cstruct (.ofList [
  ("vehicleIdx", c_uint8),
  ("lapTime"   , c_float)])

/-- `PenaltyData`. -/
def PenaltyData : CType := .cstruct (.ofList [
  ("penaltyType"     , c_uint8),
  ("infringementType", c_uint8),
  ("vehicleIdx"      , c_uint8),
  ("otherVehicleIdx" , c_uint8),
  ("time"            , c_uint8),
  ("lapNum"          , c_uint8),
  ("placesGained"    , c_uint8)])

/-- `RaceWinnerData`. -/
def RaceWinnerData : CType := .cstruct (.ofList [("vehicleIdx", c_uint8)])

/-- `RetirementData`. -/
def RetirementData : CType := .cstruct (.ofList [("vehicleIdx", c_uint8)])

/-- `SpeedTrapData`. -/
def SpeedTrapData : CType := .cstruct (.ofList [
  ("vehicleIdx", c_uint8),
  ("speed"     , c_float)])

/-- `TeamMateInPitsData`. -/
def TeamMateInPitsData : CType := .cstruct (.ofList [("vehicleIdx", c_uint8)])

/-- `EventDataDetails`: the event-payload union. -/
def EventDataDetails : CType := .cunion (.ofList [
  ("fastestLap"    , FastestLapData    ),
  ("penalty"       , PenaltyData       ),
  ("raceWinner"    , RaceWinnerData    ),
  ("retirement"    , RetirementData    ),
  ("speedTrap"     , SpeedTrapData     ),
  ("teamMateInPits", TeamMateInPitsData)])

/-- `PacketEventData_V1` (packet id 3). -/
def PacketEventData_V1 : CType := .cstruct (.ofList [
  ("header"         , PacketHeader    ),
  ("eventStringCode", .chars 4        ),
  ("eventDetails"   , EventDataDetails)])

/-- `ParticipantData_V1`. -/
def ParticipantData_V1 : CType := .cstruct (.ofList [
  ("aiControlled" , c_uint8  ),
  ("driverId"     , c_uint8  ),
  ("teamId"       , c_uint8  ),
  ("raceNumber"   , c_uint8  ),
  ("nationality"  , c_uint8  ),
  ("name"         , .chars 48),
  ("yourTelemetry", c_uint8  )])

/-- `PacketParticipantsData_V1` (packet id 4). -/
def PacketParticipantsData_V1 : CType := .cstruct (.ofList [
  ("header"       , PacketHeader          ),
  ("numActiveCars", c_uint8               ),
  ("participants" , carr ParticipantData_V1 22)])

/-- `CarSetupData_V1`. -/
def CarSetupData_V1 : CType := .cstruct (.ofList [
  ("frontWing"             , c_uint8),
  ("rearWing"              , c_uint8),
  ("onThrottle"            , c_uint8),
  ("offThrottle"           , c_uint8),
  ("frontCamber"           , c_float),
  ("rearCamber"            , c_float),
  ("frontToe"              , c_float),
  ("rearToe"               , c_float),
  ("frontSuspension"       , c_uint8),
  ("rearSuspension"        , c_uint8),
  ("frontAntiRollBar"      , c_uint8),
  ("rearAntiRollBar"       , c_uint8),
  ("frontSuspensionHeight" , c_uint8),
  ("rearSuspensionHeight"  , c_uint8),
  ("brakePressure"         , c_uint8),
  ("brakeBias"             , c_uint8),
  ("rearLeftTyrePressure"  , c_float),
  ("rearRightTyrePressure" , c_float),
  ("frontLeftTyrePressure" , c_float),
  ("frontRightTyrePressure", c_float),
  ("ballast"               , c_uint8),
  ("fuelLoad"              , c_float)])

/-- `PacketCarSetupData_V1` (packet id 5). -/
def PacketCarSetupData_V1 : CType := .cstruct (.ofList [
  ("header"   , PacketHeader       ),
  ("carSetups", carr CarSetupData_V1 22)])

/-- `CarTelemetryData_V1`. -/
def CarTelemetryData_V1 : CType := .cstruct (.ofList [
  ("speed"                  , c_uint16      ),
  ("throttle"               , c_float       ),
  ("steer"                  , c_float       ),
  ("brake"                  , c_float       ),
  ("clutch"                 , c_uint8       ),
  ("gear"                   , c_int8        ),
  ("engineRPM"              , c_uint16      ),
  ("drs"                    , c_uint8       ),
  ("revLightsPercent"       , c_uint8       ),
  ("brakesTemperature"      , carr c_uint16 4),
  ("tyresSurfaceTemperature", carr c_uint8 4),
  ("tyresInnerTemperature"  , carr c_uint8 4),
  ("engineTemperature"      , c_uint16      ),
  ("tyresPressure"          , carr c_float 4),
  ("surfaceType"            , carr c_uint8 4)])

/-- `PacketCarTelemetryData_V1` (packet id 6). -/
def PacketCarTelemetryData_V1 : CType := .cstruct (.ofList [
  ("header"                      , PacketHeader           ),
  ("carTelemetryData"            , carr CarTelemetryData_V1 22),
  ("buttonStatus"                , c_uint32               ),
  ("mfdPanelIndex"               , c_uint8                ),
  ("mfdPanelIndexSecondaryPlayer", c_uint8                ),
  ("suggestedGear"               , c_int8                 )])

/-- `CarStatusData_V1`. -/
def CarStatusData_V1 : CType := .cstruct (.ofList [
  ("tractionControl"        , c_uint8       ),
  ("antiLockBrakes"         , c_uint8       ),
  ("fuelMix"                , c_uint8       ),
  ("frontBrakeBias"         , c_uint8       ),
  ("pitLimiterStatus"       , c_uint8       ),
  ("fuelInTank"             , c_float       ),
  ("fuelCapacity"           , c_float       ),
  ("fuelRemainingLaps"      , c_float       ),
  ("maxRPM"                 , c_uint16      ),
  ("idleRPM"                , c_uint16      ),
  ("maxGears"               , c_uint8       ),
  ("drsAllowed"             , c_uint8       ),
  ("drsActivationDistance"  , c_uint16      ),
  ("tyresWear"              , carr c_uint8 4),
  ("actualTyreCompound"     , c_uint8       ),
  ("visualTyreCompound"     , c_uint8       ),
  ("tyresAgeLaps"           , c_uint8       ),
  ("tyresDamage"            , carr c_uint8 4),
  ("frontLeftWingDamage"    , c_uint8       ),
  ("frontRightWingDamage"   , c_uint8       ),
  ("rearWingDamage"         , c_uint8       ),
  ("drsFault"               , c_uint8       ),
  ("engineDamage"           , c_uint8       ),
  ("gearBoxDamage"          , c_uint8       ),
  ("vehicleFiaFlags"        , c_int8        ),
  ("ersStoreEnergy"         , c_float       ),
  ("ersDeployMode"          , c_uint8       ),
  ("ersHarvestedThisLapMGUK", c_float       ),
  ("ersHarvestedThisLapMGUH", c_float       ),
  ("ersDeployedThisLap"     , c_float       )])

/-- `PacketCarStatusData_V1` (packet id 7). -/
def PacketCarStatusData_V1 : CType := .cstruct (.ofList [
  ("header"       , PacketHeader        ),
  ("carStatusData", carr CarStatusData_V1 22)])

/-- `FinalClassificationData_V1`. -/
def FinalClassificationData_V1 : CType := .cstruct (.ofList [
  ("position"        , c_uint8       ),
  ("numLaps"         , c_uint8       ),
  ("gridPosition"    , c_uint8       ),
  ("points"          , c_uint8       ),
  ("numPitStops"     , c_uint8       ),
  ("resultStatus"    , c_uint8       ),
  ("bestLapTime"     , c_float       ),
  ("totalRaceTime"   , c_double      ),
  ("penaltiesTime"   , c_uint8       ),
  ("numPenalties"    , c_uint8       ),
  ("numTyreStints"   , c_uint8       ),
  ("tyreStintsActual", carr c_uint8 8),
  ("tyreStintsVisual", carr c_uint8 8)])

/-- `PacketFinalClassificationData_V1` (packet id 8). -/
def PacketFinalClassificationData_V1 : CType := .cstruct (.ofList [
  ("header"            , PacketHeader                  ),
  ("numCars"           , c_uint8                       ),
  ("classificationData", carr FinalClassificationData_V1 22)])

/-- `LobbyInfoData_V1`. -/
def LobbyInfoData_V1 : CType := .cstruct (.ofList [
  ("aiControlled", c_uint8  ),
  ("teamId"      , c_uint8  ),
  ("nationality" , c_uint8  ),
  ("name"        , .chars 48),
  ("readyStatus" , c_uint8  )])

/-- `PacketLobbyInfoData_V1` (packet id 9). -/
def PacketLobbyInfoData_V1 : CType := .cstruct (.ofList [
  ("header"      , PacketHeader       ),
  ("numPlayers"  , c_uint8            ),
  ("lobbyPlayers", carr LobbyInfoData_V1 22)])

/-- `DriverIDs`: the driver-id lookup table, verbatim from the source. -/
def DriverIDs : List (Nat × String) := [
  ( 0, "Carlos Sainz"), ( 1, "Daniil Kvyat"), ( 2, "Daniel Ricciardo"),
  ( 6, "Kimi Räikkönen"), ( 7, "Lewis Hamilton"), ( 9, "Max Verstappen"),
  (10, "Nico Hulkenberg"), (11, "Kevin Magnussen"), (12, "Romain Grosjean"),
  (13, "Sebastian Vettel"), (14, "Sergio Perez"), (15, "Valtteri Bottas"),
  (17, "Esteban Ocon"), (19, "Lance Stroll"), (20, "Arron Barnes"),
  (21, "Martin Giles"), (22, "Alex Murray"), (23, "Lucas Roth"),
  (24, "Igor Correia"), (25, "Sophie Levasseur"), (26, "Jonas Schiffer"),
  (27, "Alain Forest"), (28, "Jay Letourneau"), (29, "Esto Saari"),
  (30, "Yasar Atiyeh"), (31, "Callisto Calabresi"), (32, "Naota Izum"),
  (33, "Howard Clarke"), (34, "Wilhelm Kaufmann"), (35, "Marie Laursen"),
  (36, "Flavio Nieves"), (37, "Peter Belousov"), (38, "Klimek Michalski"),
  (39, "Santiago Moreno"), (40, "Benjamin Coppens"), (41, "Noah Visser"),
  (42, "Gert Waldmuller"), (43, "Julian Quesada"), (44, "Daniel Jones"),
  (45, "Artem Markelov"), (46, "Tadasuke Makino"), (47, "Sean Gelael"),
  (48, "Nyck De Vries"), (49, "Jack Aitken"), (50, "George Russell"),
  (51, "Maximilian Günther"), (52, "Nirei Fukuzumi"), (53, "Luca Ghiotto"),
  (54, "Lando Norris"), (55, "Sérgio Sette Câmara"), (56, "Louis Delétraz"),
  (57, "Antonio Fuoco"), (58, "Charles Leclerc"), (59, "Pierre Gasly"),
  (62, "Alexander Albon"), (63, "Nicholas Latifi"), (64, "Dorian Boccolacci"),
  (65, "Niko Kari"), (66, "Roberto Merhi"), (67, "Arjun Maini"),
  (68, "Alessio Lorandi"), (69, "Ruben Meijer"), (70, "Rashid Nair"),
  (71, "Jack Tremblay"), (74, "Antonio Giovinazzi"), (75, "Robert Kubica"),
  (78, "Nobuharu Matsushita"), (79, "Nikita Mazepin"), (80, "Guanyu Zhou"),
  (81, "Mick Schumacher"), (82, "Callum Ilott"), (83, "Juan Manuel Correa"),
  (84, "Jordan King"), (85, "Mahaveer Raghunathan"), (86, "Tatiana Calderón"),
  (87, "Anthoine Hubert"), (88, "Giuliano Alesi"), (89, "Ralph Boschung")]

/-- `HeaderFieldsToPacketType`: the registry mapping
`(packetFormat, packetVersion, packetId)` to the packet layout. -/
def HeaderFieldsToPacketType : List ((Int × Int × Int) × CType) := [
  ((2020, 1, 0), PacketMotionData_V1),
  ((2020, 1, 1), PacketSessionData_V1),
  ((2020, 1, 2), PacketLapData_V1),
  ((2020, 1, 3), PacketEventData_V1),
  ((2020, 1, 4), PacketParticipantsData_V1),
  ((2020, 1, 5), PacketCarSetupData_V1),
  ((2020, 1, 6), PacketCarTelemetryData_V1),
  ((2020, 1, 7), PacketCarStatusData_V1),
  ((2020, 1, 8), PacketFinalClassificationData_V1),
  ((2020, 1, 9), PacketLobbyInfoData_V1)]

/-- Registry lookup (`key in HeaderFieldsToPacketType` / indexing). -/
def resolveType (key : Int × Int × Int) : List ((Int × Int × Int) × CType) → Option CType
  | [] => none
  | (k, t) :: rest => if key = k then some t else resolveType key rest

/-- The three failure modes of `unpack_udp_packet`, carrying the data of the
corresponding `UnpackError` messages in the source. -/
inductive UnpackError where
  | tooShort (actual_packet_size : Nat)
  | unknownSchema (key : Int × Int × Int)
  | sizeMismatch (expected_packet_size actual_packet_size : Nat)

/-- The `(packetFormat, packetVersion, packetId)` key read from a buffer's
leading header bytes. -/
def headerKey (packet : List Nat) : Int × Int × Int :=
  let header := from_buffer_copy PacketHeader packet
  (getIntField header "packetFormat", getIntField header "packetVersion",
   getIntField header "packetId")

/-- `unpack_udp_packet`: convert a raw UDP packet to a typed telemetry record,
translated from the source: length pre-check against the header size, header
decode, registry lookup, exact-size check, full decode. -/
def unpack_udp_packet (packet : List Nat) : Except UnpackError CValue :=
  let actual_packet_size := packet.length
  let header_size := csizeof PacketHeader
  if actual_packet_size < header_size then
    .error (.tooShort actual_packet_size)
  else
    let key := headerKey packet
    match resolveType key HeaderFieldsToPacketType with
    | none => .error (.unknownSchema key)
    | some packet_type =>
      let expected_packet_size := csizeof packet_type
      if actual_packet_size ≠ expected_packet_size then
        .error (.sizeMismatch expected_packet_size actual_packet_size)
      else
        .ok (from_buffer_copy packet_type packet)

/-- The event string code `b"SSTA"` as wire bytes. -/
def SSTA : List Nat := [83, 83, 84, 65]
/-- The event string code `b"SEND"` as wire bytes. -/
def SEND : List Nat := [83, 69, 78, 68]
/-- The event string code `b"FTLP"` as wire bytes. -/
def FTLP : List Nat := [70, 84, 76, 80]
/-- The event string code `b"RTMT"` as wire bytes. -/
def RTMT : List Nat := [82, 84, 77, 84]
/-- The event string code `b"DRSE"` as wire bytes. -/
def DRSE : List Nat := [68, 82, 83, 69]
/-- The event string code `b"DRSD"` as wire bytes. -/
def DRSD : List Nat := [68, 82, 83, 68]
/-- The event string code `b"TMPT"` as wire bytes. -/
def TMPT : List Nat := [84, 77, 80, 84]
/-- The event string code `b"CHQF"` as wire bytes. -/
def CHQF : List Nat := [67, 72, 81, 70]
/-- The event string code `b"RCWN"` as wire bytes. -/
def RCWN : List Nat := [82, 67, 87, 78]
/-- The event string code `b"PENA"` as wire bytes. -/
def PENA : List Nat := [80, 69, 78, 65]
/-- The event string code `b"SPTP"` as wire bytes. -/
def SPTP : List Nat := [83, 80, 84, 80]

/-- The closed set of eleven recognized event codes (`EventStringCode`). -/
def eventStringCodes : List (List Nat) :=
  [SSTA, SEND, FTLP, RTMT, DRSE, DRSD, TMPT, CHQF, RCWN, PENA, SPTP]

/-- The event-payload selection of `PacketEventData_V1.__repr__`: the five
codes `CHQF, DRSD, DRSE, SEND, SSTA` expose no payload value; each of the six
payload codes re-decodes the matching member from the union's raw bytes
(as `self.eventDetails.fastestLap` etc. does); any other code fails
(`RuntimeError("Bad event code ...")`). -/
def eventPayloadOf (record : CValue) : Except Unit (Option (String × CValue)) :=
  let event := getBytesField record "eventStringCode"
  let raw := getBytesField record "eventDetails"
  if event = CHQF ∨ event = DRSD ∨ event = DRSE ∨ event = SEND ∨ event = SSTA then
    .ok none
  else if event = FTLP then .ok (some ("fastestLap", from_buffer_copy FastestLapData raw))
  else if event = PENA then .ok (some ("penalty", from_buffer_copy PenaltyData raw))
  else if event = RCWN then .ok (some ("raceWinner", from_buffer_copy RaceWinnerData raw))
  else if event = RTMT then .ok (some ("retirement", from_buffer_copy RetirementData raw))
  else if event = SPTP then .ok (some ("speedTrap", from_buffer_copy SpeedTrapData raw))
  else if event = TMPT then .ok (some ("teamMateInPits", from_buffer_copy TeamMateInPitsData raw))
  else .error ()

/-- Replace the `gameMajorVersion` / `gameMinorVersion` fields of a decoded
header by 0, leaving every other field untouched. -/
def scrubHeaderFields : CFieldVals → CFieldVals
  | .nil => .nil
  | .cons nm v fs =>
      .cons nm (if nm = "gameMajorVersion" ∨ nm = "gameMinorVersion" then .intV 0 else v)
        (scrubHeaderFields fs)

/-- Replace the header's game-version fields of a decoded record by 0. -/
def scrubGameVersion : CValue → CValue
  | .structV (.cons "header" (.structV hfs) rest) =>
      .structV (.cons "header" (.structV (scrubHeaderFields hfs)) rest)
  | v => v

/-- The rational value denoted by a 32-bit IEEE-754 single-precision bit
pattern (finite cases; used only to read concrete `c_float` fields back as
numbers). -/
def f32ToRat (bits : Nat) : ℚ :=
  let s : ℕ := bits / 2 ^ 31 % 2
  let e : ℕ := bits / 2 ^ 23 % 2 ^ 8
  let m : ℕ := bits % 2 ^ 23
  let mag : ℚ := if e = 0 then (m : ℚ) / 2 ^ 149 else ((2 ^ 23 + m : ℕ) : ℚ) * 2 ^ e / 2 ^ 150
  if s = 1 then -mag else mag

/-- A `PacketHeader` record value with the given field values (unsigned
integers; `sessionTime` is the raw 32-bit pattern of the `c_float`). -/
def headerValue (packetFormat gameMajorVersion gameMinorVersion packetVersion packetId
    sessionUID sessionTime frameIdentifier playerCarIndex secondaryPlayerCarIndex : Nat) :
    CValue :=
  .structV (.cons "packetFormat" (.intV packetFormat)
    (.cons "gameMajorVersion" (.intV gameMajorVersion)
    (.cons "gameMinorVersion" (.intV gameMinorVersion)
    (.cons "packetVersion" (.intV packetVersion)
    (.cons "packetId" (.intV packetId)
    (.cons "sessionUID" (.intV sessionUID)
    (.cons "sessionTime" (.intV sessionTime)
    (.cons "frameIdentifier" (.intV frameIdentifier)
    (.cons "playerCarIndex" (.intV playerCarIndex)
    (.cons "secondaryPlayerCarIndex" (.intV secondaryPlayerCarIndex) .nil))))))))))

/-- A header value for an event packet: format 2020, version 1, packet id 3,
all remaining fields zero. -/
def eventHeader : CValue := headerValue 2020 0 0 1 3 0 0 0 0 0

/-- A 35-byte event-packet buffer: encoded event header, 4 code bytes,
7 payload-union bytes. -/
def eventBuffer (code payload : List Nat) : List Nat :=
  to_bytes PacketHeader eventHeader ++ (code ++ payload)

/-- The record that decoding `eventBuffer code payload` produces. -/
def eventRecord (code payload : List Nat) : CValue :=
  .structV (.cons "header" eventHeader
    (.cons "eventStringCode" (.bytesV code)
    (.cons "eventDetails" (.bytesV payload) .nil)))

theorem length_encUNat (n : Nat) : ∀ v, (encUNat n v).length = n := by
  induction n with
  | zero => intro v; rfl
  | succ n ih => intro v; simp [encUNat, ih]

theorem readUNat_encUNat (n : Nat) : ∀ (x : Nat) (rest : List Nat),
    readUNat n (encUNat n x ++ rest) = x % 2 ^ (8 * n) := by
  induction n with
  | zero => intro x rest; simp only [readUNat, encUNat, Nat.pow_zero, Nat.mul_zero, Nat.mod_one]
  | succ n ih =>
    intro x rest
    have h : 2 ^ (8 * (n + 1)) = 256 * 2 ^ (8 * n) := by
      rw [Nat.mul_succ, Nat.pow_add]; ring
    simp only [encUNat, readUNat, List.cons_append, List.headD_cons, List.tail_cons, ih, h,
      Nat.mod_mul]

theorem int_cast_pow_256 (n : Nat) : ((2 ^ (8 * n) : Nat) : Int) = 2 ^ (8 * n) := by
  push_cast; ring

theorem int_cast_pow_256_half (n : Nat) :
    ((2 ^ (8 * n) / 2 : Nat) : Int) = (2 ^ (8 * n) : Int) / 2 := by
  have h := int_cast_pow_256 n
  omega

mutual
theorem length_to_bytes : ∀ (t : CType) (v : CValue), wellTyped t v = true →
    (to_bytes t v).length = csizeof t
  | .uint n, .intV v, _ => by simp [to_bytes, csizeof, length_encUNat]
  | .sint n, .intV v, _ => by
    unfold to_bytes
    split <;> simp [csizeof, length_encUNat]
  | .chars n, .bytesV bs, h => by
    simp only [wellTyped, Bool.and_eq_true, decide_eq_true_eq] at h
    simpa [to_bytes, csizeof] using h.1
  | .cunion fs, .bytesV bs, h => by
    simp only [wellTyped, Bool.and_eq_true, decide_eq_true_eq] at h
    simpa [to_bytes, csizeof] using h.1
  | .carray ts, .arrV vs, h => by
    simpa [to_bytes, csizeof] using length_encodeElems ts vs h
  | .cstruct fs, .structV vs, h => by
    simpa [to_bytes, csizeof] using length_encodeFieldVals fs vs h
  | .uint _, .bytesV _, h => Bool.noConfusion h
  | .uint _, .arrV _, h => Bool.noConfusion h
  | .uint _, .structV _, h => Bool.noConfusion h
  | .sint _, .bytesV _, h => Bool.noConfusion h
  | .sint _, .arrV _, h => Bool.noConfusion h
  | .sint _, .structV _, h => Bool.noConfusion h
  | .chars _, .intV _, h => Bool.noConfusion h
  | .chars _, .arrV _, h => Bool.noConfusion h
  | .chars _, .structV _, h => Bool.noConfusion h
  | .carray _, .intV _, h => Bool.noConfusion h
  | .carray _, .bytesV _, h => Bool.noConfusion h
  | .carray _, .structV _, h => Bool.noConfusion h
  | .cstruct _, .intV _, h => Bool.noConfusion h
  | .cstruct _, .bytesV _, h => Bool.noConfusion h
  | .cstruct _, .arrV _, h => Bool.noConfusion h
  | .cunion _, .intV _, h => Bool.noConfusion h
  | .cunion _, .arrV _, h => Bool.noConfusion h
  | .cunion _, .structV _, h => Bool.noConfusion h

theorem length_encodeElems : ∀ (ts : CTypes) (vs : CValues), wellTypedElems ts vs = true →
    (encodeElems ts vs).length = csizeofElems ts
  | .nil, .nil, _ => rfl
  | .cons t ts, .cons v vs, h => by
    simp only [wellTypedElems, Bool.and_eq_true] at h
    simp [encodeElems, csizeofElems, length_to_bytes t v h.1, length_encodeElems ts vs h.2]
  | .nil, .cons _ _, h => Bool.noConfusion h
  | .cons _ _, .nil, h => Bool.noConfusion h

theorem length_encodeFieldVals : ∀ (fs : CFields) (vs : CFieldVals),
    wellTypedFields fs vs = true → (encodeFieldVals fs vs).length = csizeofFields fs
  | .nil, .nil, _ => rfl
  | .cons nm t fs, .cons nm' v vs, h => by
    simp only [wellTypedFields, Bool.and_eq_true, decide_eq_true_eq] at h
    simp [encodeFieldVals, csizeofFields, length_to_bytes t v h.1.2,
      length_encodeFieldVals fs vs h.2]
  | .nil, .cons _ _ _, h => Bool.noConfusion h
  | .cons _ _ _, .nil, h => Bool.noConfusion h
end

mutual
theorem decode_encode : ∀ (t : CType) (v : CValue), wellTyped t v = true →
    ∀ rest : List Nat, from_buffer_copy t (to_bytes t v ++ rest) = v
  | .uint n, .intV v, h, rest => by
    simp only [wellTyped, Bool.and_eq_true, decide_eq_true_eq] at h
    obtain ⟨h0, h1⟩ := h
    have hpow : ((2 ^ (8 * n) : Nat) : Int) = 2 ^ (8 * n) := int_cast_pow_256 n
    simp only [to_bytes, from_buffer_copy, readUNat_encUNat]
    have hv : v.toNat < 2 ^ (8 * n) := by omega
    rw [Nat.mod_eq_of_lt hv]
    congr 1
    omega
  | .sint n, .intV v, h, rest => by
    simp only [wellTyped, Bool.and_eq_true, decide_eq_true_eq] at h
    obtain ⟨h0, h1⟩ := h
    have hpow : ((2 ^ (8 * n) : Nat) : Int) = 2 ^ (8 * n) := int_cast_pow_256 n
    simp only [to_bytes, from_buffer_copy]
    by_cases hs : 0 ≤ v
    · rw [if_pos hs]
      simp only [readUNat_encUNat]
      have hv : v.toNat < 2 ^ (8 * n) := by omega
      rw [Nat.mod_eq_of_lt hv]
      unfold sintOf
      rw [if_pos (by omega)]
      congr 1
      omega
    · rw [if_neg hs]
      simp only [readUNat_encUNat]
      have hv : (v + 2 ^ (8 * n)).toNat < 2 ^ (8 * n) := by omega
      rw [Nat.mod_eq_of_lt hv]
      unfold sintOf
      rw [if_neg (by omega)]
      congr 1
      omega
  | .chars n, .bytesV bs, h, rest => by
    simp only [wellTyped, Bool.and_eq_true, decide_eq_true_eq] at h
    simp [to_bytes, from_buffer_copy, List.take_left' h.1]
  | .cunion fs, .bytesV bs, h, rest => by
    simp only [wellTyped, Bool.and_eq_true, decide_eq_true_eq] at h
    simp [to_bytes, from_buffer_copy, csizeof, List.take_left' h.1]
  | .carray ts, .arrV vs, h, rest => by
    simpa [to_bytes, from_buffer_copy] using decodeElems_encodeElems ts vs h rest
  | .cstruct fs, .structV vs, h, rest => by
    simpa [to_bytes, from_buffer_copy] using decodeFields_encodeFieldVals fs vs h rest
  | .uint _, .bytesV _, h, _ => Bool.noConfusion h
  | .uint _, .arrV _, h, _ => Bool.noConfusion h
  | .uint _, .structV _, h, _ => Bool.noConfusion h
  | .sint _, .bytesV _, h, _ => Bool.noConfusion h
  | .sint _, .arrV _, h, _ => Bool.noConfusion h
  | .sint _, .structV _, h, _ => Bool.noConfusion h
  | .chars _, .intV _, h, _ => Bool.noConfusion h
  | .chars _, .arrV _, h, _ => Bool.noConfusion h
  | .chars _, .structV _, h, _ => Bool.noConfusion h
  | .carray _, .intV _, h, _ => Bool.noConfusion h
  | .carray _, .bytesV _, h, _ => Bool.noConfusion h
  | .carray _, .structV _, h, _ => Bool.noConfusion h
  | .cstruct _, .intV _, h, _ => Bool.noConfusion h
  | .cstruct _, .bytesV _, h, _ => Bool.noConfusion h
  | .cstruct _, .arrV _, h, _ => Bool.noConfusion h
  | .cunion _, .intV _, h, _ => Bool.noConfusion h
  | .cunion _, .arrV _, h, _ => Bool.noConfusion h
  | .cunion _, .structV _, h, _ => Bool.noConfusion h

theorem decodeElems_encodeElems : ∀ (ts : CTypes) (vs : CValues),
    wellTypedElems ts vs = true → ∀ rest : List Nat,
    decodeElems ts (encodeElems ts vs ++ rest) = vs
  | .nil, .nil, _, rest => rfl
  | .cons t ts, .cons v vs, h, rest => by
    simp only [wellTypedElems, Bool.and_eq_true] at h
    simp only [encodeElems, decodeElems, List.append_assoc]
    rw [decode_encode t v h.1, List.drop_left' (length_to_bytes t v h.1),
      decodeElems_encodeElems ts vs h.2]
  | .nil, .cons _ _, h, _ => Bool.noConfusion h
  | .cons _ _, .nil, h, _ => Bool.noConfusion h

theorem decodeFields_encodeFieldVals : ∀ (fs : CFields) (vs : CFieldVals),
    wellTypedFields fs vs = true → ∀ rest : List Nat,
    decodeFields fs (encodeFieldVals fs vs ++ rest) = vs
  | .nil, .nil, _, rest => rfl
  | .cons nm t fs, .cons nm' v vs, h, rest => by
    simp only [wellTypedFields, Bool.and_eq_true, decide_eq_true_eq] at h
    obtain ⟨⟨hnm, hv⟩, hvs⟩ := h
    simp only [encodeFieldVals, decodeFields, List.append_assoc]
    rw [decode_encode t v hv, List.drop_left' (length_to_bytes t v hv),
      decodeFields_encodeFieldVals fs vs hvs, hnm]
  | .nil, .cons _ _ _, h, _ => Bool.noConfusion h
  | .cons _ _ _, .nil, h, _ => Bool.noConfusion h
end

theorem resolveType_eq_none {key : Int × Int × Int} :
    ∀ l : List ((Int × Int × Int) × CType), key ∉ l.map Prod.fst → resolveType key l = none
  | [], _ => rfl
  | (k, t) :: rest, h => by
    simp only [List.map_cons, List.mem_cons] at h
    push_neg at h
    simp [resolveType, h.1, resolveType_eq_none rest h.2]

theorem resolve_shape {key : Int × Int × Int} {t : CType}
    (h : resolveType key HeaderFieldsToPacketType = some t) :
    ∃ fs, t = .cstruct (.cons "header" PacketHeader fs) := by
  simp only [HeaderFieldsToPacketType, resolveType] at h
  repeat' split at h
  all_goals simp only [Option.some.injEq, reduceCtorEq] at h
  all_goals first
    | exact absurd h (by simp)
    | exact ⟨_, h.symm⟩

theorem wellTyped_headerValue {pf maj mnr pv pid uid st fid pci spci : Nat}
    (hpf : pf < 65536) (hmaj : maj < 256) (hmnr : mnr < 256) (hpv : pv < 256)
    (hpid : pid < 256) (huid : uid < 18446744073709551616) (hst : st < 4294967296)
    (hfid : fid < 4294967296) (hpci : pci < 256) (hspci : spci < 256) :
    wellTyped PacketHeader (headerValue pf maj mnr pv pid uid st fid pci spci) = true := by
  simp only [PacketHeader, headerValue, CFields.ofList, c_uint16, c_uint8, c_uint64, c_float,
    c_uint32, wellTyped, wellTypedFields, Bool.and_eq_true, decide_eq_true_eq]
  norm_num
  omega

theorem headerKey_headerValue {pf maj mnr pv pid uid st fid pci spci : Nat}
    (hpf : pf < 65536) (hmaj : maj < 256) (hmnr : mnr < 256) (hpv : pv < 256)
    (hpid : pid < 256) (huid : uid < 18446744073709551616) (hst : st < 4294967296)
    (hfid : fid < 4294967296) (hpci : pci < 256) (hspci : spci < 256) (rest : List Nat) :
    headerKey (to_bytes PacketHeader (headerValue pf maj mnr pv pid uid st fid pci spci) ++ rest)
      = ((pf : Int), (pv : Int), (pid : Int)) := by
  unfold headerKey
  rw [decode_encode PacketHeader _
    (wellTyped_headerValue hpf hmaj hmnr hpv hpid huid hst hfid hpci hspci) rest]
  rfl

/-- C1: for every registered `(2020, 1, kind)` triple (kinds 0–9), a buffer of
exactly the schema's size whose first 24 bytes little-endian-encode a valid
header (format 2020, packet version 1, packet id `pid`, arbitrary in-range
values for the remaining header fields) and whose payload bytes are all zero
is decoded by `unpack_udp_packet` without error, and the decoded record's
header equals the encoded header field for field. -/
theorem claim1_header_roundtrip (pid : Nat) (hpid : pid < 10) (t : CType)
    (hres : resolveType (2020, 1, (pid : Int)) HeaderFieldsToPacketType = some t)
    (maj mnr uid st fid pci spci : Nat)
    (hmaj : maj < 256) (hmnr : mnr < 256) (huid : uid < 18446744073709551616)
    (hst : st < 4294967296) (hfid : fid < 4294967296) (hpci : pci < 256) (hspci : spci < 256) :
    (to_bytes PacketHeader (headerValue 2020 maj mnr 1 pid uid st fid pci spci) ++
        List.replicate (csizeof t - 24) 0).length = csizeof t ∧
    ∃ rest, unpack_udp_packet
        (to_bytes PacketHeader (headerValue 2020 maj mnr 1 pid uid st fid pci spci) ++
          List.replicate (csizeof t - 24) 0) =
      .ok (.structV (.cons "header" (headerValue 2020 maj mnr 1 pid uid st fid pci spci) rest)) := by
  obtain ⟨fs, rfl⟩ := resolve_shape hres
  have hpid' : pid < 256 := by omega
  have hwf := @wellTyped_headerValue 2020 maj mnr 1 pid uid st fid pci spci
    (by norm_num) hmaj hmnr (by norm_num) hpid' huid hst hfid hpci hspci
  have hlen24 : (to_bytes PacketHeader
      (headerValue 2020 maj mnr 1 pid uid st fid pci spci)).length = 24 :=
    length_to_bytes _ _ hwf
  have hsz : csizeof (CType.cstruct (.cons "header" PacketHeader fs)) = 24 + csizeofFields fs :=
    rfl
  have hlenbuf : (to_bytes PacketHeader (headerValue 2020 maj mnr 1 pid uid st fid pci spci) ++
      List.replicate (csizeof (CType.cstruct (.cons "header" PacketHeader fs)) - 24) 0).length =
      csizeof (CType.cstruct (.cons "header" PacketHeader fs)) := by
    rw [List.length_append, hlen24, List.length_replicate, hsz]
    omega
  refine ⟨hlenbuf, ?_⟩
  unfold unpack_udp_packet
  rw [hlenbuf]
  rw [if_neg (by rw [hsz]; show ¬(24 + csizeofFields fs < 24); omega)]
  rw [headerKey_headerValue (by norm_num) hmaj hmnr (by norm_num) hpid' huid hst hfid hpci hspci]
  simp only [Nat.cast_ofNat, Nat.cast_one]
  simp only [hres, ne_eq, not_true_eq_false, if_false, ite_false, if_neg]
  refine ⟨decodeFields fs ((to_bytes PacketHeader
      (headerValue 2020 maj mnr 1 pid uid st fid pci spci) ++
      List.replicate (csizeof (CType.cstruct (.cons "header" PacketHeader fs)) - 24) 0).drop
      (csizeof PacketHeader)), ?_⟩
  show Except.ok (CValue.structV (.cons "header" (from_buffer_copy PacketHeader _)
    (decodeFields fs _))) = _
  rw [decode_encode PacketHeader _ hwf]

/-- Witness for C1: kind 3 (event packet, 35 bytes) with the optional
header fields all zero. -/
theorem claim1_header_roundtrip_witness :
    3 < 10 ∧
    (to_bytes PacketHeader (headerValue 2020 0 0 1 3 0 0 0 0 0) ++
        List.replicate (csizeof PacketEventData_V1 - 24) 0).length = csizeof PacketEventData_V1 ∧
    ∃ rest, unpack_udp_packet
        (to_bytes PacketHeader (headerValue 2020 0 0 1 3 0 0 0 0 0) ++
          List.replicate (csizeof PacketEventData_V1 - 24) 0) =
      .ok (.structV (.cons "header" (headerValue 2020 0 0 1 3 0 0 0 0 0) rest)) :=
  ⟨by norm_num,
   claim1_header_roundtrip 3 (by norm_num) PacketEventData_V1 rfl 0 0 0 0 0 0 0
     (by norm_num) (by norm_num) (by norm_num) (by norm_num) (by norm_num) (by norm_num)
     (by norm_num)⟩

/-- C2: the total byte size of every packet structure is the plain sum of its
declared field widths with no alignment padding anywhere (`csizeof` computes
exactly that sum under `_pack_ = 1`; nested sub-records contribute their own
unpadded sums, and the event-payload union occupies the maximum of its member
sizes, here 7 bytes), and the ten totals are exactly the documented sizes. -/
theorem claim2_packet_sizes :
    csizeof PacketMotionData_V1 = 1464 ∧ csizeof PacketSessionData_V1 = 251 ∧
    csizeof PacketLapData_V1 = 1190 ∧ csizeof PacketEventData_V1 = 35 ∧
    csizeof PacketParticipantsData_V1 = 1213 ∧ csizeof PacketCarSetupData_V1 = 1102 ∧
    csizeof PacketCarTelemetryData_V1 = 1307 ∧ csizeof PacketCarStatusData_V1 = 1344 ∧
    csizeof PacketFinalClassificationData_V1 = 839 ∧ csizeof PacketLobbyInfoData_V1 = 1169 ∧
    csizeof EventDataDetails = 7 ∧
    csizeof PacketEventData_V1 = csizeof PacketHeader + 4 + csizeof EventDataDetails :=
  ⟨rfl, rfl, rfl, rfl, rfl, rfl, rfl, rfl, rfl, rfl, rfl, rfl⟩

/-- C3: a buffer of at least 24 bytes whose header triple resolves to a
registered schema, but whose length is not exactly the schema's size, fails
with `SizeMismatch` carrying the expected and actual sizes; no record is
returned. -/
theorem claim3_size_mismatch (packet : List Nat) (t : CType)
    (h24 : 24 ≤ packet.length)
    (hres : resolveType (headerKey packet) HeaderFieldsToPacketType = some t)
    (hne : packet.length ≠ csizeof t) :
    unpack_udp_packet packet = .error (.sizeMismatch (csizeof t) packet.length) := by
  unfold unpack_udp_packet
  have h0 : csizeof PacketHeader = 24 := rfl
  rw [if_neg (by omega)]
  simp only [hres]
  rw [if_pos hne]

/-- Witness for C3: an event-kind buffer of 34 bytes (one byte short of the
35-byte schema size) fails with `SizeMismatch 35 34`. -/
theorem claim3_size_mismatch_witness :
    24 ≤ ([228, 7, 0, 0, 1, 3] ++ List.replicate 28 0 : List Nat).length ∧
    resolveType (headerKey ([228, 7, 0, 0, 1, 3] ++ List.replicate 28 0))
      HeaderFieldsToPacketType = some PacketEventData_V1 ∧
    ([228, 7, 0, 0, 1, 3] ++ List.replicate 28 0 : List Nat).length ≠
      csizeof PacketEventData_V1 ∧
    unpack_udp_packet ([228, 7, 0, 0, 1, 3] ++ List.replicate 28 0) =
      .error (.sizeMismatch (csizeof PacketEventData_V1)
        ([228, 7, 0, 0, 1, 3] ++ List.replicate 28 0 : List Nat).length) :=
  ⟨by decide, rfl, by decide,
   claim3_size_mismatch ([228, 7, 0, 0, 1, 3] ++ List.replicate 28 0) PacketEventData_V1
     (by decide) rfl (by decide)⟩

/-- C4: the registry holds exactly the ten keys `(2020, 1, 0)` … `(2020, 1, 9)`,
and any buffer of at least 24 bytes whose decoded header triple is not among
them fails with `UnknownSchema`; no partially interpreted record is returned. -/
theorem claim4_unknown_schema :
    HeaderFieldsToPacketType.map Prod.fst =
      [(2020, 1, 0), (2020, 1, 1), (2020, 1, 2), (2020, 1, 3), (2020, 1, 4),
       (2020, 1, 5), (2020, 1, 6), (2020, 1, 7), (2020, 1, 8), (2020, 1, 9)] ∧
    ∀ packet : List Nat, 24 ≤ packet.length →
      headerKey packet ∉ HeaderFieldsToPacketType.map Prod.fst →
      unpack_udp_packet packet = .error (.unknownSchema (headerKey packet)) := by
  refine ⟨rfl, ?_⟩
  intro packet h24 hmem
  unfold unpack_udp_packet
  have h0 : csizeof PacketHeader = 24 := rfl
  rw [if_neg (by omega)]
  simp only [resolveType_eq_none _ hmem]

/-- Witness for C4: 24 zero bytes decode to the unregistered triple (0,0,0)
and fail with `UnknownSchema`. -/
theorem claim4_unknown_schema_witness :
    24 ≤ (List.replicate 24 0 : List Nat).length ∧
    headerKey (List.replicate 24 0) ∉ HeaderFieldsToPacketType.map Prod.fst ∧
    unpack_udp_packet (List.replicate 24 0) =
      .error (.unknownSchema (headerKey (List.replicate 24 0))) :=
  ⟨by decide, by decide,
   claim4_unknown_schema.2 (List.replicate 24 0) (by decide) (by decide)⟩

/-- C5: any buffer shorter than the 24-byte header size fails with `TooShort`
carrying the actual length, regardless of the buffer's content. -/
theorem claim5_too_short (packet : List Nat) (h : packet.length < 24) :
    unpack_udp_packet packet = .error (.tooShort packet.length) := by
  unfold unpack_udp_packet
  rw [if_pos (show packet.length < csizeof PacketHeader from h)]

/-- Witness for C5: the empty buffer fails with `TooShort 0`. -/
theorem claim5_too_short_witness :
    ([] : List Nat).length < 24 ∧
    unpack_udp_packet [] = .error (.tooShort ([] : List Nat).length) :=
  ⟨by decide, claim5_too_short [] (by decide)⟩

/-- C9: the driver lookup table maps code 34 to exactly "Wilhelm Kaufmann"
(the corrected spelling, which differs from "Wilheim Kaufmann"). -/
theorem claim9_driver34 :
    DriverIDs.lookup 34 = some "Wilhelm Kaufmann" ∧
    "Wilhelm Kaufmann" ≠ "Wilheim Kaufmann" :=
  ⟨rfl, by decide⟩

/-- A valid 35-byte event buffer (valid header, 4 code bytes, 7 payload
bytes) decodes to the corresponding event record, whatever the code bytes
are. -/
theorem unpack_eventBuffer (code payload : List Nat)
    (hcode : code.length = 4) (hpayload : payload.length = 7) :
    unpack_udp_packet (eventBuffer code payload) = .ok (eventRecord code payload) := by
  have hwf : wellTyped PacketHeader eventHeader = true := by decide
  have hlen : (eventBuffer code payload).length = 35 := by
    simp only [eventBuffer, List.length_append, hcode, hpayload,
      show (to_bytes PacketHeader eventHeader).length = 24 from rfl]
  unfold unpack_udp_packet
  rw [hlen]
  rw [if_neg (by decide)]
  rw [show headerKey (eventBuffer code payload) = (2020, 1, 3) from rfl]
  simp only [show resolveType (2020, 1, 3) HeaderFieldsToPacketType =
    some PacketEventData_V1 from rfl]
  rw [if_neg (by decide)]
  show Except.ok (CValue.structV (.cons "header"
      (from_buffer_copy PacketHeader (eventBuffer code payload))
      (.cons "eventStringCode" (.bytesV (((eventBuffer code payload).drop 24).take 4))
      (.cons "eventDetails" (.bytesV ((((eventBuffer code payload).drop 24).drop 4).take 7))
        .nil)))) = _
  have hdrop : (eventBuffer code payload).drop 24 = code ++ payload :=
    List.drop_left' (show (to_bytes PacketHeader eventHeader).length = 24 from rfl)
  have hhdr : from_buffer_copy PacketHeader (eventBuffer code payload) = eventHeader :=
    decode_encode PacketHeader eventHeader hwf (code ++ payload)
  rw [hhdr, hdrop, List.take_left' hcode, List.drop_left' hcode, ← hpayload,
    List.take_length]
  rfl

/-- C6: for a valid 35-byte event packet the active payload is selected solely
by the 4-byte event code: decode succeeds and yields the header, the code
bytes and the raw 7-byte union region; the five codes SSTA, SEND, DRSE, DRSD,
CHQF expose no payload value; each of the six codes FTLP, PENA, RCWN, RTMT,
SPTP, TMPT exposes exactly the matching sub-record decoded from the payload
byte range; and the concrete FTLP buffer with vehicle index 7 and the 32-bit
float 91.234 decodes to a fastest-lap payload with `vehicleIdx = 7` and
`lapTime` within 1/1000 of 91.234. -/
theorem claim6_event_payload (code payload : List Nat)
    (hcode : code.length = 4) (hpayload : payload.length = 7) :
    unpack_udp_packet (eventBuffer code payload) = .ok (eventRecord code payload) ∧
    (eventPayloadOf (eventRecord SSTA payload) = .ok none ∧
     eventPayloadOf (eventRecord SEND payload) = .ok none ∧
     eventPayloadOf (eventRecord DRSE payload) = .ok none ∧
     eventPayloadOf (eventRecord DRSD payload) = .ok none ∧
     eventPayloadOf (eventRecord CHQF payload) = .ok none) ∧
    (eventPayloadOf (eventRecord FTLP payload) =
       .ok (some ("fastestLap", from_buffer_copy FastestLapData payload)) ∧
     eventPayloadOf (eventRecord PENA payload) =
       .ok (some ("penalty", from_buffer_copy PenaltyData payload)) ∧
     eventPayloadOf (eventRecord RCWN payload) =
       .ok (some ("raceWinner", from_buffer_copy RaceWinnerData payload)) ∧
     eventPayloadOf (eventRecord RTMT payload) =
       .ok (some ("retirement", from_buffer_copy RetirementData payload)) ∧
     eventPayloadOf (eventRecord SPTP payload) =
       .ok (some ("speedTrap", from_buffer_copy SpeedTrapData payload)) ∧
     eventPayloadOf (eventRecord TMPT payload) =
       .ok (some ("teamMateInPits", from_buffer_copy TeamMateInPitsData payload))) ∧
    (unpack_udp_packet (eventBuffer FTLP ([7] ++ [207, 119, 182, 66] ++ [0, 0])) =
       .ok (eventRecord FTLP ([7] ++ [207, 119, 182, 66] ++ [0, 0])) ∧
     eventPayloadOf (eventRecord FTLP ([7] ++ [207, 119, 182, 66] ++ [0, 0])) =
       .ok (some ("fastestLap", .structV (.cons "vehicleIdx" (.intV 7)
         (.cons "lapTime" (.intV 1119254479) .nil)))) ∧
     |f32ToRat 1119254479 - 91234 / 1000| < 1 / 1000) := by
  refine ⟨unpack_eventBuffer code payload hcode hpayload,
    ⟨rfl, rfl, rfl, rfl, rfl⟩, ⟨rfl, rfl, rfl, rfl, rfl, rfl⟩, rfl, rfl, ?_⟩
  rw [show f32ToRat 1119254479 = 11958223 / 131072 from by norm_num [f32ToRat]]
  rw [abs_sub_lt_iff]
  norm_num

/-- Witness for C6: the FTLP scenario buffer instantiates the claim. -/
theorem claim6_event_payload_witness :
    (FTLP : List Nat).length = 4 ∧
    ([7, 207, 119, 182, 66, 0, 0] : List Nat).length = 7 ∧
    unpack_udp_packet (eventBuffer FTLP [7, 207, 119, 182, 66, 0, 0]) =
      .ok (eventRecord FTLP [7, 207, 119, 182, 66, 0, 0]) ∧
    eventPayloadOf (eventRecord FTLP [7, 207, 119, 182, 66, 0, 0]) =
      .ok (some ("fastestLap", from_buffer_copy FastestLapData [7, 207, 119, 182, 66, 0, 0])) :=
  ⟨rfl, rfl, (claim6_event_payload FTLP [7, 207, 119, 182, 66, 0, 0] rfl rfl).1,
   (claim6_event_payload FTLP [7, 207, 119, 182, 66, 0, 0] rfl rfl).2.2.1.1⟩

/-- C7 counterexample: a 35-byte event buffer whose 4-byte code `b"XXXX"` is
not among the eleven recognized codes is nonetheless decoded by
`unpack_udp_packet` into a typed record — no `UnknownEventCode` failure occurs
at decode time, contradicting the claim that no typed record is returned. -/
theorem claim7_counterexample :
    ([88, 88, 88, 88] : List Nat) ∉ eventStringCodes ∧
    unpack_udp_packet (eventBuffer [88, 88, 88, 88] [0, 0, 0, 0, 0, 0, 0]) =
      .ok (eventRecord [88, 88, 88, 88] [0, 0, 0, 0, 0, 0, 0]) :=
  ⟨by decide, rfl⟩

/-- C7 amended: `unpack_udp_packet` performs no event-code validation — a
valid 35-byte event buffer decodes to a typed record even when its 4-byte
code is not one of the eleven recognized codes; only the payload selector
(the `__repr__` dispatch of `PacketEventData_V1`) fails on such a record. -/
theorem claim7_unknown_event_code (code payload : List Nat)
    (hcode : code.length = 4) (hpayload : payload.length = 7)
    (hnot : code ∉ eventStringCodes) :
    unpack_udp_packet (eventBuffer code payload) = .ok (eventRecord code payload) ∧
    eventPayloadOf (eventRecord code payload) = .error () := by
  refine ⟨unpack_eventBuffer code payload hcode hpayload, ?_⟩
  simp only [eventStringCodes, List.mem_cons, List.not_mem_nil, or_false, not_or] at hnot
  obtain ⟨hssta, hsend, hftlp, hrtmt, hdrse, hdrsd, htmpt, hchqf, hrcwn, hpena, hsptp⟩ := hnot
  simp only [eventPayloadOf]
  rw [show getBytesField (eventRecord code payload) "eventStringCode" = code from rfl]
  rw [if_neg (by simp [hchqf, hdrsd, hdrse, hsend, hssta])]
  rw [if_neg hftlp, if_neg hpena, if_neg hrcwn, if_neg hrtmt, if_neg hsptp, if_neg htmpt]

/-- Witness for the amended C7 with code `b"XXXX"`. -/
theorem claim7_unknown_event_code_witness :
    ([88, 88, 88, 88] : List Nat).length = 4 ∧
    ([0, 0, 0, 0, 0, 0, 0] : List Nat).length = 7 ∧
    ([88, 88, 88, 88] : List Nat) ∉ eventStringCodes ∧
    (unpack_udp_packet (eventBuffer [88, 88, 88, 88] [0, 0, 0, 0, 0, 0, 0]) =
       .ok (eventRecord [88, 88, 88, 88] [0, 0, 0, 0, 0, 0, 0]) ∧
     eventPayloadOf (eventRecord [88, 88, 88, 88] [0, 0, 0, 0, 0, 0, 0]) = .error ()) :=
  ⟨rfl, rfl, by decide,
   claim7_unknown_event_code [88, 88, 88, 88] [0, 0, 0, 0, 0, 0, 0] rfl rfl (by decide)⟩

/-- C8 counterexample: a well-typed event record whose header carries
`packetFormat = 2021` (an arbitrary, non-default field value, as the claim
allows) serializes to 35 bytes that `unpack_udp_packet` rejects with
`UnknownSchema` — decode does not return a record equal to the original, so
the round-trip law fails for records with arbitrary header field values. -/
theorem claim8_counterexample :
    wellTyped PacketEventData_V1 (.structV (.cons "header"
      (headerValue 2021 0 0 1 3 0 0 0 0 0)
      (.cons "eventStringCode" (.bytesV SSTA)
      (.cons "eventDetails" (.bytesV [0, 0, 0, 0, 0, 0, 0]) .nil)))) = true ∧
    unpack_udp_packet (to_bytes PacketEventData_V1 (.structV (.cons "header"
      (headerValue 2021 0 0 1 3 0 0 0 0 0)
      (.cons "eventStringCode" (.bytesV SSTA)
      (.cons "eventDetails" (.bytesV [0, 0, 0, 0, 0, 0, 0]) .nil))))) =
      .error (.unknownSchema (2021, 1, 3)) :=
  ⟨by decide, rfl⟩

set_option maxRecDepth 4096 in
/-- C8 amended: the round-trip law holds for every well-typed record of every
one of the ten packet kinds whose header triple is its registered
`(2020, 1, kind)` triple (all other fields arbitrary): serializing the record
and decoding the bytes with `unpack_udp_packet` returns the record unchanged.
(The restriction is forced: `unpack_udp_packet` dispatches on the serialized
header, so a record whose header triple is not registered fails to decode.) -/
theorem claim8_roundtrip (pid : Nat) (t : CType)
    (hres : resolveType (2020, 1, (pid : Int)) HeaderFieldsToPacketType = some t)
    (maj mnr uid st fid pci spci : Nat) (vs : CFieldVals)
    (hrec : wellTyped t (.structV (.cons "header"
      (headerValue 2020 maj mnr 1 pid uid st fid pci spci) vs)) = true) :
    unpack_udp_packet (to_bytes t (.structV (.cons "header"
      (headerValue 2020 maj mnr 1 pid uid st fid pci spci) vs))) =
    .ok (.structV (.cons "header" (headerValue 2020 maj mnr 1 pid uid st fid pci spci) vs)) := by
  obtain ⟨fs, rfl⟩ := resolve_shape hres
  have hsplit : (decide ("header" = "header") &&
      wellTyped PacketHeader (headerValue 2020 maj mnr 1 pid uid st fid pci spci) &&
      wellTypedFields fs vs) = true := hrec
  simp only [Bool.and_eq_true] at hsplit
  obtain ⟨⟨-, hwfh⟩, hwfvs⟩ := hsplit
  have hlen : (to_bytes (CType.cstruct (.cons "header" PacketHeader fs))
      (.structV (.cons "header" (headerValue 2020 maj mnr 1 pid uid st fid pci spci) vs))).length
      = csizeof (CType.cstruct (.cons "header" PacketHeader fs)) :=
    length_to_bytes _ _ hrec
  have hsz : csizeof (CType.cstruct (.cons "header" PacketHeader fs)) = 24 + csizeofFields fs :=
    rfl
  unfold unpack_udp_packet
  rw [hlen]
  rw [if_neg (by rw [hsz]; show ¬(24 + csizeofFields fs < 24); omega)]
  have hkey : headerKey (to_bytes (CType.cstruct (.cons "header" PacketHeader fs))
      (.structV (.cons "header" (headerValue 2020 maj mnr 1 pid uid st fid pci spci) vs))) =
      (2020, 1, (pid : Int)) := by
    show headerKey (to_bytes PacketHeader (headerValue 2020 maj mnr 1 pid uid st fid pci spci) ++
      encodeFieldVals fs vs) = _
    unfold headerKey
    rw [decode_encode PacketHeader _ hwfh]
    show (((2020 : Nat) : Int), ((1 : Nat) : Int), ((pid : Nat) : Int)) = _
    norm_num
  rw [hkey]
  simp only [hres, ne_eq, not_true_eq_false, if_false, ite_false, if_neg]
  have hdec := decode_encode (CType.cstruct (.cons "header" PacketHeader fs))
    (.structV (.cons "header" (headerValue 2020 maj mnr 1 pid uid st fid pci spci) vs)) hrec []
  rw [List.append_nil] at hdec
  rw [hdec]

/-- Witness for the amended C8: an event record with non-zero, non-default
field values round-trips. -/
theorem claim8_roundtrip_witness :
    resolveType (2020, 1, (3 : Int)) HeaderFieldsToPacketType = some PacketEventData_V1 ∧
    wellTyped PacketEventData_V1 (.structV (.cons "header"
      (headerValue 2020 1 18 1 3 987654321 1119254479 424242 19 255)
      (.cons "eventStringCode" (.bytesV FTLP)
      (.cons "eventDetails" (.bytesV [7, 207, 119, 182, 66, 9, 8]) .nil)))) = true ∧
    unpack_udp_packet (to_bytes PacketEventData_V1 (.structV (.cons "header"
      (headerValue 2020 1 18 1 3 987654321 1119254479 424242 19 255)
      (.cons "eventStringCode" (.bytesV FTLP)
      (.cons "eventDetails" (.bytesV [7, 207, 119, 182, 66, 9, 8]) .nil))))) =
      .ok (.structV (.cons "header"
        (headerValue 2020 1 18 1 3 987654321 1119254479 424242 19 255)
        (.cons "eventStringCode" (.bytesV FTLP)
        (.cons "eventDetails" (.bytesV [7, 207, 119, 182, 66, 9, 8]) .nil)))) :=
  ⟨rfl, by decide,
   claim8_roundtrip 3 PacketEventData_V1 rfl 1 18 987654321 1119254479 424242 19 255
     (.cons "eventStringCode" (.bytesV FTLP)
      (.cons "eventDetails" (.bytesV [7, 207, 119, 182, 66, 9, 8]) .nil))
     (by decide)⟩

/-- C10: dispatch and decoding ignore the game-version header bytes — two
buffers of equal length that differ only at byte offsets 2 and 3
(`gameMajorVersion`, `gameMinorVersion`) produce the same outcome: the same
error (with identical data) on failure, and on success records that agree
everywhere once the two game-version fields are erased, i.e. they differ only
in those header fields. -/
theorem claim10_game_version_ignored (b0 b1 x y x' y' : Nat) (rest : List Nat) :
    Except.map scrubGameVersion (unpack_udp_packet (b0 :: b1 :: x :: y :: rest)) =
    Except.map scrubGameVersion (unpack_udp_packet (b0 :: b1 :: x' :: y' :: rest)) := by
  unfold unpack_udp_packet
  have hlen1 : (b0 :: b1 :: x :: y :: rest).length = rest.length + 4 := by
    simp [List.length_cons]
  have hlen2 : (b0 :: b1 :: x' :: y' :: rest).length = rest.length + 4 := by
    simp [List.length_cons]
  rw [hlen1, hlen2]
  have h24 : csizeof PacketHeader = 24 := rfl
  rw [h24]
  by_cases hshort : rest.length + 4 < 24
  · rw [if_pos hshort, if_pos hshort]
  · rw [if_neg hshort, if_neg hshort]
    rw [show headerKey (b0 :: b1 :: x :: y :: rest) =
      headerKey (b0 :: b1 :: x' :: y' :: rest) from rfl]
    cases hres : resolveType (headerKey (b0 :: b1 :: x' :: y' :: rest))
        HeaderFieldsToPacketType with
    | none => simp only [hres]
    | some t =>
      simp only [hres]
      obtain ⟨fs, rfl⟩ := resolve_shape hres
      by_cases hsz : rest.length + 4 = csizeof (CType.cstruct (.cons "header" PacketHeader fs))
      · rw [if_neg (by omega), if_neg (by omega)]
        rfl
      · rw [if_pos (by omega), if_pos (by omega)]
